import Mathlib

/-!
# Verification of the voting-change scoring strategies

Shallow embedding of `src/voting_2024_change_analysis/scoring.py`.
Python floats are modelled as rationals (`ℚ`): every constant in the
source (10, 50, 25, 2, 0.05, 0.06, ...) is exactly representable, and the
claims under study are exact arithmetic statements.
-/

/-- Embeds class `ScoreFloatPair`: the counts of weak and strong votes. -/
structure ScoreFloatPair where
  weak : ℚ
  strong : ℚ
deriving DecidableEq, Repr

namespace ScoreFloatPair

/-- Embeds `ScoreFloatPair.add`. -/
def add (self other : ScoreFloatPair) : ScoreFloatPair :=
  ⟨self.weak + other.weak, self.strong + other.strong⟩

/-- Embeds `ScoreFloatPair.divide`. -/
def divide (self : ScoreFloatPair) (other : ℚ) : ScoreFloatPair :=
  ⟨self.weak / other, self.strong / other⟩

@[simp] theorem add_weak (a b : ScoreFloatPair) : (a.add b).weak = a.weak + b.weak := rfl

@[simp] theorem add_strong (a b : ScoreFloatPair) : (a.add b).strong = a.strong + b.strong := rfl

@[simp] theorem divide_weak (a : ScoreFloatPair) (q : ℚ) : (a.divide q).weak = a.weak / q := rfl

@[simp] theorem divide_strong (a : ScoreFloatPair) (q : ℚ) : (a.divide q).strong = a.strong / q := rfl

end ScoreFloatPair

namespace PublicWhipScore

/-- The `points` numerator computed inside `PublicWhipScore.score`. -/
def points (votes_different votes_absent votes_abstain : ScoreFloatPair) : ℚ :=
  let vote_weight : ScoreFloatPair := ⟨10, 50⟩
  let absence_weight : ScoreFloatPair := ⟨1, 25⟩
  let votes_absent_or_abstain := votes_absent.add votes_abstain
  vote_weight.weak * votes_different.weak
    + vote_weight.strong * votes_different.strong
    + absence_weight.weak * votes_absent_or_abstain.weak
    + absence_weight.strong * votes_absent_or_abstain.strong

/-- The `avaliable_points` denominator computed inside `PublicWhipScore.score`
(the misspelling is the source's). -/
def avaliable_points (votes_same votes_different votes_absent votes_abstain : ScoreFloatPair) : ℚ :=
  let vote_weight : ScoreFloatPair := ⟨10, 50⟩
  let absence_total_weight : ScoreFloatPair := ⟨2, 50⟩
  let votes_absent_or_abstain := votes_absent.add votes_abstain
  vote_weight.weak * votes_same.weak
    + vote_weight.weak * votes_different.weak
    + vote_weight.strong * votes_same.strong
    + vote_weight.strong * votes_different.strong
    + absence_total_weight.strong * votes_absent_or_abstain.strong
    + absence_total_weight.weak * votes_absent_or_abstain.weak

/-- Embeds `PublicWhipScore.score`.  The two `-1` early returns are the
pure-absence rule followed by the zero-denominator rule, in source order. -/
def score (votes_same votes_different votes_absent votes_abstain
    agreements_same agreements_different : ScoreFloatPair) : ℚ :=
  let all_absences := votes_absent.weak + votes_absent.strong
  let all_others := votes_same.weak + votes_same.strong
    + votes_different.weak + votes_different.strong
    + votes_abstain.weak + votes_abstain.strong
  if all_others = 0 ∧ all_absences > 0 then -1
  else if avaliable_points votes_same votes_different votes_absent votes_abstain = 0 then -1
  else points votes_different votes_absent votes_abstain
    / avaliable_points votes_same votes_different votes_absent votes_abstain

end PublicWhipScore

/-- The clamp pipeline shared verbatim by `SimplifiedGradiatedScore.score` and
`SimplifiedScore.score`: first the `votes_absent.strong > 1` narrow clamp, then
the `votes_absent.strong ≥ total / 3` wide clamp re-examining the adjusted value. -/
def applyClamps (absent_strong total score : ℚ) : ℚ :=
  let score1 := if absent_strong > 1 then
      (if score ≤ 0.05 then 0.06 else if score ≥ 0.95 then 0.94 else score)
    else score
  if absent_strong ≥ total / 3 then
    (if score1 ≤ 0.15 then 0.16 else if score1 ≥ 0.85 then 0.84 else score1)
  else score1

/-- The `total` strong-tier count shared by both simplified strategies. -/
def strongTotal (votes_same votes_different votes_absent votes_abstain : ScoreFloatPair) : ℚ :=
  (((votes_same.add votes_different).add votes_absent).add votes_abstain).strong

namespace SimplifiedGradiatedScore

/-- The `points` numerator computed inside `SimplifiedGradiatedScore.score`. -/
def points (votes_different votes_absent votes_abstain agreements_different : ScoreFloatPair) : ℚ :=
  let vote_weight : ScoreFloatPair := ⟨10, 50⟩
  let agreement_weight := vote_weight
  let abstain_weight := vote_weight.divide 2
  let absence_weight : ScoreFloatPair := ⟨0, 0⟩
  vote_weight.weak * votes_different.weak
    + vote_weight.strong * votes_different.strong
    + absence_weight.weak * votes_absent.weak
    + absence_weight.strong * votes_absent.strong
    + abstain_weight.weak * votes_abstain.weak
    + abstain_weight.strong * votes_abstain.strong
    + agreement_weight.weak * agreements_different.weak
    + agreement_weight.strong * agreements_different.strong

/-- The `avaliable_points` denominator computed inside `SimplifiedGradiatedScore.score`. -/
def avaliable_points (votes_same votes_different votes_absent votes_abstain
    agreements_same agreements_different : ScoreFloatPair) : ℚ :=
  let vote_weight : ScoreFloatPair := ⟨10, 50⟩
  let agreement_weight := vote_weight
  let abstain_total_weight := vote_weight
  let absence_total_weight : ScoreFloatPair := ⟨0, 0⟩
  vote_weight.weak * (votes_same.weak + votes_different.weak)
    + vote_weight.strong * (votes_same.strong + votes_different.strong)
    + agreement_weight.weak * (agreements_same.weak + agreements_different.weak)
    + agreement_weight.strong * (agreements_same.strong + agreements_different.strong)
    + absence_total_weight.weak * votes_absent.weak
    + absence_total_weight.strong * votes_absent.strong
    + abstain_total_weight.weak * votes_abstain.weak
    + abstain_total_weight.strong * votes_abstain.strong

/-- Embeds `SimplifiedGradiatedScore.score`. -/
def score (votes_same votes_different votes_absent votes_abstain
    agreements_same agreements_different : ScoreFloatPair) : ℚ :=
  if avaliable_points votes_same votes_different votes_absent votes_abstain
      agreements_same agreements_different = 0 then -1
  else
    applyClamps votes_absent.strong
      (strongTotal votes_same votes_different votes_absent votes_abstain)
      (points votes_different votes_absent votes_abstain agreements_different
        / avaliable_points votes_same votes_different votes_absent votes_abstain
          agreements_same agreements_different)

end SimplifiedGradiatedScore

namespace SimplifiedScore

/-- The `points` numerator computed inside `SimplifiedScore.score`
(weak weight 0, strong weight 10). -/
def points (votes_different votes_absent votes_abstain agreements_different : ScoreFloatPair) : ℚ :=
  let vote_weight : ScoreFloatPair := ⟨0, 10⟩
  let agreement_weight := vote_weight
  let abstain_weight := vote_weight.divide 2
  let absence_weight : ScoreFloatPair := ⟨0, 0⟩
  vote_weight.weak * votes_different.weak
    + vote_weight.strong * votes_different.strong
    + absence_weight.weak * votes_absent.weak
    + absence_weight.strong * votes_absent.strong
    + abstain_weight.weak * votes_abstain.weak
    + abstain_weight.strong * votes_abstain.strong
    + agreement_weight.weak * agreements_different.weak
    + agreement_weight.strong * agreements_different.strong

/-- The `avaliable_points` denominator computed inside `SimplifiedScore.score`. -/
def avaliable_points (votes_same votes_different votes_absent votes_abstain
    agreements_same agreements_different : ScoreFloatPair) : ℚ :=
  let vote_weight : ScoreFloatPair := ⟨0, 10⟩
  let agreement_weight := vote_weight
  let abstain_total_weight := vote_weight
  let absence_total_weight : ScoreFloatPair := ⟨0, 0⟩
  vote_weight.weak * (votes_same.weak + votes_different.weak)
    + vote_weight.strong * (votes_same.strong + votes_different.strong)
    + agreement_weight.weak * (agreements_same.weak + agreements_different.weak)
    + agreement_weight.strong * (agreements_same.strong + agreements_different.strong)
    + absence_total_weight.weak * votes_absent.weak
    + absence_total_weight.strong * votes_absent.strong
    + abstain_total_weight.weak * votes_abstain.weak
    + abstain_total_weight.strong * votes_abstain.strong

/-- Embeds `SimplifiedScore.score`. -/
def score (votes_same votes_different votes_absent votes_abstain
    agreements_same agreements_different : ScoreFloatPair) : ℚ :=
  if avaliable_points votes_same votes_different votes_absent votes_abstain
      agreements_same agreements_different = 0 then -1
  else
    applyClamps votes_absent.strong
      (strongTotal votes_same votes_different votes_absent votes_abstain)
      (points votes_different votes_absent votes_abstain agreements_different
        / avaliable_points votes_same votes_different votes_absent votes_abstain
          agreements_same agreements_different)

end SimplifiedScore

/-! ## Theorems about the claims -/

/-- C4: for each of the three strategies, if all six Weighted Pair arguments are
all-zero, `score` returns -1. -/
theorem all_zero_inputs_return_neg_one :
    PublicWhipScore.score ⟨0, 0⟩ ⟨0, 0⟩ ⟨0, 0⟩ ⟨0, 0⟩ ⟨0, 0⟩ ⟨0, 0⟩ = -1 ∧
    SimplifiedGradiatedScore.score ⟨0, 0⟩ ⟨0, 0⟩ ⟨0, 0⟩ ⟨0, 0⟩ ⟨0, 0⟩ ⟨0, 0⟩ = -1 ∧
    SimplifiedScore.score ⟨0, 0⟩ ⟨0, 0⟩ ⟨0, 0⟩ ⟨0, 0⟩ ⟨0, 0⟩ ⟨0, 0⟩ = -1 := by
  refine ⟨?_, ?_, ?_⟩ <;>
    norm_num [PublicWhipScore.score, PublicWhipScore.avaliable_points,
      SimplifiedGradiatedScore.score, SimplifiedGradiatedScore.avaliable_points,
      SimplifiedScore.score, SimplifiedScore.avaliable_points, ScoreFloatPair.add]

/-- C8: the literal Public Whip scenario votes_same = (2,0), votes_absent = (3,0),
everything else zero, yields points = 3, available = 26 and score = 3/26. -/
theorem publicWhip_literal_scenario :
    PublicWhipScore.points ⟨0, 0⟩ ⟨3, 0⟩ ⟨0, 0⟩ = 3 ∧
    PublicWhipScore.avaliable_points ⟨2, 0⟩ ⟨0, 0⟩ ⟨3, 0⟩ ⟨0, 0⟩ = 26 ∧
    PublicWhipScore.score ⟨2, 0⟩ ⟨0, 0⟩ ⟨3, 0⟩ ⟨0, 0⟩ ⟨0, 0⟩ ⟨0, 0⟩ = 3 / 26 := by
  refine ⟨?_, ?_, ?_⟩ <;>
    norm_num [PublicWhipScore.score, PublicWhipScore.points,
      PublicWhipScore.avaliable_points, ScoreFloatPair.add]

/-- C7: the two agreements arguments never affect the Public Whip score: two calls
agreeing on the four votes pairs return the same value for any agreements pairs. -/
theorem publicWhip_ignores_agreements
    (vs vd vab vat ags agd ags' agd' : ScoreFloatPair) :
    PublicWhipScore.score vs vd vab vat ags agd
      = PublicWhipScore.score vs vd vab vat ags' agd' := rfl

/-- C3: for the Public Whip strategy, if all components of votes_same, votes_different
and votes_abstain are zero and the component sum of votes_absent is positive, the
score is -1, whatever the magnitude of the absent counts. -/
theorem publicWhip_pure_absence
    (vs vd vab vat ags agd : ScoreFloatPair)
    (hsw : vs.weak = 0) (hss : vs.strong = 0)
    (hdw : vd.weak = 0) (hds : vd.strong = 0)
    (htw : vat.weak = 0) (hts : vat.strong = 0)
    (habs : vab.weak + vab.strong > 0) :
    PublicWhipScore.score vs vd vab vat ags agd = -1 := by
  simp [PublicWhipScore.score, hsw, hss, hdw, hds, htw, hts, habs]

/-- Witness for C3 at votes_absent = (5, 7). -/
theorem publicWhip_pure_absence_witness :
    (5 : ℚ) + 7 > 0 ∧
    PublicWhipScore.score ⟨0, 0⟩ ⟨0, 0⟩ ⟨5, 7⟩ ⟨0, 0⟩ ⟨0, 0⟩ ⟨0, 0⟩ = -1 :=
  ⟨by norm_num,
    publicWhip_pure_absence ⟨0, 0⟩ ⟨0, 0⟩ ⟨5, 7⟩ ⟨0, 0⟩ ⟨0, 0⟩ ⟨0, 0⟩
      rfl rfl rfl rfl rfl rfl (by norm_num)⟩

/-- C9: for the Simplified Score strategy, any weak-only comparison (all six strong
components zero, weak components arbitrary) returns -1 because the weak weight is
zero and the denominator reduces to 0. -/
theorem simplified_weak_only_neg_one
    (vs vd vab vat ags agd : ScoreFloatPair)
    (hss : vs.strong = 0) (hds : vd.strong = 0)
    (habs : vab.strong = 0) (hats : vat.strong = 0)
    (hags : ags.strong = 0) (hagd : agd.strong = 0) :
    SimplifiedScore.score vs vd vab vat ags agd = -1 := by
  simp [SimplifiedScore.score, SimplifiedScore.avaliable_points,
    hss, hds, habs, hats, hags, hagd]

/-- Witness for C9 at arbitrary weak counts. -/
theorem simplified_weak_only_neg_one_witness :
    SimplifiedScore.score ⟨4, 0⟩ ⟨9, 0⟩ ⟨2, 0⟩ ⟨1, 0⟩ ⟨6, 0⟩ ⟨3, 0⟩ = -1 :=
  simplified_weak_only_neg_one ⟨4, 0⟩ ⟨9, 0⟩ ⟨2, 0⟩ ⟨1, 0⟩ ⟨6, 0⟩ ⟨3, 0⟩
    rfl rfl rfl rfl rfl rfl

/-- C1: outside both -1 edge cases, the Public Whip score is exactly the
points / available ratio with the claimed weights. -/
theorem publicWhip_ratio_formula
    (vs vd vab vat ags agd : ScoreFloatPair)
    (h1 : ¬(vs.weak + vs.strong + vd.weak + vd.strong + vat.weak + vat.strong = 0
      ∧ vab.weak + vab.strong > 0))
    (h2 : 10 * (vs.weak + vd.weak) + 50 * (vs.strong + vd.strong)
      + 2 * (vab.weak + vat.weak) + 50 * (vab.strong + vat.strong) ≠ 0) :
    PublicWhipScore.score vs vd vab vat ags agd
      = (10 * vd.weak + 50 * vd.strong
          + 1 * (vab.weak + vat.weak) + 25 * (vab.strong + vat.strong))
        / (10 * (vs.weak + vd.weak) + 50 * (vs.strong + vd.strong)
          + 2 * (vab.weak + vat.weak) + 50 * (vab.strong + vat.strong)) := by
  have hav : PublicWhipScore.avaliable_points vs vd vab vat
      = 10 * (vs.weak + vd.weak) + 50 * (vs.strong + vd.strong)
        + 2 * (vab.weak + vat.weak) + 50 * (vab.strong + vat.strong) := by
    simp only [PublicWhipScore.avaliable_points, ScoreFloatPair.add_weak,
      ScoreFloatPair.add_strong]
    ring
  have hpt : PublicWhipScore.points vd vab vat
      = 10 * vd.weak + 50 * vd.strong
        + 1 * (vab.weak + vat.weak) + 25 * (vab.strong + vat.strong) := by
    simp only [PublicWhipScore.points, ScoreFloatPair.add_weak, ScoreFloatPair.add_strong]
  simp only [PublicWhipScore.score]
  rw [if_neg h1, if_neg (by rw [hav]; exact h2), hpt, hav]

/-- Witness for C1 at votes_same = (1, 0), everything else zero. -/
theorem publicWhip_ratio_formula_witness :
    PublicWhipScore.score ⟨1, 0⟩ ⟨0, 0⟩ ⟨0, 0⟩ ⟨0, 0⟩ ⟨0, 0⟩ ⟨0, 0⟩
      = (10 * 0 + 50 * 0 + 1 * (0 + 0) + 25 * (0 + 0))
        / (10 * (1 + 0) + 50 * (0 + 0) + 2 * (0 + 0) + 50 * (0 + 0)) :=
  publicWhip_ratio_formula ⟨1, 0⟩ ⟨0, 0⟩ ⟨0, 0⟩ ⟨0, 0⟩ ⟨0, 0⟩ ⟨0, 0⟩
    (by norm_num) (by norm_num)

/-- C5: with avail > 0, raw ratio at most 0.05 and votes_absent.strong = 2, the
narrow clamp yields 0.06; then the wide clamp leaves 0.06 exactly when
2 < total/3 and re-clamps the adjusted 0.06 up to 0.16 when 2 ≥ total/3. -/
theorem simplifiedGradiated_sequential_clamps
    (vs vd vab vat ags agd : ScoreFloatPair)
    (hav : 0 < SimplifiedGradiatedScore.avaliable_points vs vd vab vat ags agd)
    (hr : SimplifiedGradiatedScore.points vd vab vat agd
      / SimplifiedGradiatedScore.avaliable_points vs vd vab vat ags agd ≤ 0.05)
    (h2 : vab.strong = 2) :
    (2 < strongTotal vs vd vab vat / 3 →
      SimplifiedGradiatedScore.score vs vd vab vat ags agd = 0.06) ∧
    (strongTotal vs vd vab vat / 3 ≤ 2 →
      SimplifiedGradiatedScore.score vs vd vab vat ags agd = 0.16) := by
  have hne : SimplifiedGradiatedScore.avaliable_points vs vd vab vat ags agd ≠ 0 :=
    ne_of_gt hav
  constructor
  · intro hlt
    simp only [SimplifiedGradiatedScore.score, if_neg hne, applyClamps, h2]
    rw [if_pos (by norm_num : (2 : ℚ) > 1), if_pos hr, if_neg (not_le.mpr hlt)]
  · intro hle
    simp only [SimplifiedGradiatedScore.score, if_neg hne, applyClamps, h2]
    rw [if_pos (by norm_num : (2 : ℚ) > 1), if_pos hr, if_pos hle,
      if_pos (by norm_num : (0.06 : ℚ) ≤ 0.15)]

/-- Witness for C5: votes_same.strong = 7 gives total 9 (2 < 3, first clamp only,
score 0.06); votes_same.strong = 4 gives total 6 (2 ≥ 2, both clamps, 0.16). -/
theorem simplifiedGradiated_sequential_clamps_witness :
    SimplifiedGradiatedScore.score ⟨0, 7⟩ ⟨0, 0⟩ ⟨0, 2⟩ ⟨0, 0⟩ ⟨0, 0⟩ ⟨0, 0⟩ = 0.06 ∧
    SimplifiedGradiatedScore.score ⟨0, 4⟩ ⟨0, 0⟩ ⟨0, 2⟩ ⟨0, 0⟩ ⟨0, 0⟩ ⟨0, 0⟩ = 0.16 :=
  ⟨(simplifiedGradiated_sequential_clamps ⟨0, 7⟩ ⟨0, 0⟩ ⟨0, 2⟩ ⟨0, 0⟩ ⟨0, 0⟩ ⟨0, 0⟩
      (by norm_num [SimplifiedGradiatedScore.avaliable_points])
      (by norm_num [SimplifiedGradiatedScore.points,
        SimplifiedGradiatedScore.avaliable_points, ScoreFloatPair.divide])
      rfl).1
    (by norm_num [strongTotal, ScoreFloatPair.add]),
   (simplifiedGradiated_sequential_clamps ⟨0, 4⟩ ⟨0, 0⟩ ⟨0, 2⟩ ⟨0, 0⟩ ⟨0, 0⟩ ⟨0, 0⟩
      (by norm_num [SimplifiedGradiatedScore.avaliable_points])
      (by norm_num [SimplifiedGradiatedScore.points,
        SimplifiedGradiatedScore.avaliable_points, ScoreFloatPair.divide])
      rfl).2
    (by norm_num [strongTotal, ScoreFloatPair.add])⟩

/-- C10: in the Simplified Gradiated strategy, when the four votes pairs have zero
strong components but the denominator is positive, total = 0 and the wide clamp
condition holds vacuously, so ratios at most 0.15 become 0.16 and ratios at least
0.85 become 0.84. -/
theorem simplifiedGradiated_weak_only_clamped
    (vs vd vab vat ags agd : ScoreFloatPair)
    (hss : vs.strong = 0) (hds : vd.strong = 0)
    (habs : vab.strong = 0) (hats : vat.strong = 0)
    (hav : 0 < SimplifiedGradiatedScore.avaliable_points vs vd vab vat ags agd) :
    SimplifiedGradiatedScore.score vs vd vab vat ags agd =
      (if SimplifiedGradiatedScore.points vd vab vat agd
          / SimplifiedGradiatedScore.avaliable_points vs vd vab vat ags agd ≤ 0.15
        then 0.16
        else if SimplifiedGradiatedScore.points vd vab vat agd
          / SimplifiedGradiatedScore.avaliable_points vs vd vab vat ags agd ≥ 0.85
        then 0.84
        else SimplifiedGradiatedScore.points vd vab vat agd
          / SimplifiedGradiatedScore.avaliable_points vs vd vab vat ags agd) := by
  have hne : SimplifiedGradiatedScore.avaliable_points vs vd vab vat ags agd ≠ 0 :=
    ne_of_gt hav
  simp only [SimplifiedGradiatedScore.score, if_neg hne, applyClamps, strongTotal,
    ScoreFloatPair.add_strong, hss, hds, habs, hats, add_zero, zero_add]
  rw [if_neg (by norm_num : ¬((0 : ℚ) > 1)), if_pos (by norm_num : (0 : ℚ) ≥ 0 / 3)]

/-- Witness for C10: a weak-only perfect-alignment input returns 0.16, not 0. -/
theorem simplifiedGradiated_weak_only_clamped_witness :
    SimplifiedGradiatedScore.score ⟨1, 0⟩ ⟨0, 0⟩ ⟨0, 0⟩ ⟨0, 0⟩ ⟨0, 0⟩ ⟨0, 0⟩ = 0.16 := by
  have h := simplifiedGradiated_weak_only_clamped ⟨1, 0⟩ ⟨0, 0⟩ ⟨0, 0⟩ ⟨0, 0⟩ ⟨0, 0⟩ ⟨0, 0⟩
    rfl rfl rfl rfl (by norm_num [SimplifiedGradiatedScore.avaliable_points])
  rw [h, if_pos (by norm_num [SimplifiedGradiatedScore.points,
    SimplifiedGradiatedScore.avaliable_points, ScoreFloatPair.divide])]

/-- C6: on inputs whose weak components are all zero, the Simplified strategy
(weights (0, 10)) agrees exactly with the Simplified Gradiated strategy
(weights (10, 50)): numerator and denominator both scale by 5, the ratio and
both clamps coincide. -/
theorem simplifiedScore_eq_gradiated_when_weak_zero
    (vs vd vab vat ags agd : ScoreFloatPair)
    (h1 : vs.weak = 0) (h2 : vd.weak = 0) (h3 : vab.weak = 0)
    (h4 : vat.weak = 0) (h5 : ags.weak = 0) (h6 : agd.weak = 0) :
    SimplifiedScore.score vs vd vab vat ags agd
      = SimplifiedGradiatedScore.score vs vd vab vat ags agd := by
  have hp : SimplifiedGradiatedScore.points vd vab vat agd
      = 5 * SimplifiedScore.points vd vab vat agd := by
    simp only [SimplifiedGradiatedScore.points, SimplifiedScore.points,
      ScoreFloatPair.divide_weak, ScoreFloatPair.divide_strong, h2, h3, h4, h6]
    ring
  have ha : SimplifiedGradiatedScore.avaliable_points vs vd vab vat ags agd
      = 5 * SimplifiedScore.avaliable_points vs vd vab vat ags agd := by
    simp only [SimplifiedGradiatedScore.avaliable_points,
      SimplifiedScore.avaliable_points, h1, h2, h3, h4, h5, h6]
    ring
  by_cases h : SimplifiedScore.avaliable_points vs vd vab vat ags agd = 0
  · simp only [SimplifiedScore.score, SimplifiedGradiatedScore.score]
    rw [if_pos h, if_pos (by rw [ha, h, mul_zero])]
  · simp only [SimplifiedScore.score, SimplifiedGradiatedScore.score]
    rw [if_neg h, if_neg (by rw [ha]; exact mul_ne_zero (by norm_num) h)]
    congr 1
    rw [hp, ha, mul_div_mul_left _ _ (by norm_num : (5 : ℚ) ≠ 0)]

/-- A Weighted Pair with both components non-negative. -/
def ScoreFloatPair.Nonneg (p : ScoreFloatPair) : Prop := 0 ≤ p.weak ∧ 0 ≤ p.strong

/-- A ratio of a non-negative numerator over a no-smaller nonzero denominator
lies in the unit interval. -/
theorem ratio_mem_unit (p a : ℚ) (hp : 0 ≤ p) (hpa : p ≤ a) (ha : a ≠ 0) :
    0 ≤ p / a ∧ p / a ≤ 1 := by
  have ha' : 0 < a := lt_of_le_of_ne (le_trans hp hpa) (Ne.symm ha)
  exact ⟨div_nonneg hp ha'.le, (div_le_one ha').mpr hpa⟩

/-- The clamp pipeline maps the unit interval into itself: every adjusted value is
either the incoming score or one of 0.06, 0.94, 0.16, 0.84. -/
theorem applyClamps_mem_unit (a t s : ℚ) (h0 : 0 ≤ s) (h1 : s ≤ 1) :
    0 ≤ applyClamps a t s ∧ applyClamps a t s ≤ 1 := by
  simp only [applyClamps]
  constructor <;> split_ifs <;> first | assumption | linarith

/-- C2: with all twelve pair components non-negative, each of the three strategies
returns either the sentinel -1 or a value in the closed interval [0, 1]. -/
theorem scores_bounded
    (vs vd vab vat ags agd : ScoreFloatPair)
    (n1 : vs.Nonneg) (n2 : vd.Nonneg) (n3 : vab.Nonneg)
    (n4 : vat.Nonneg) (n5 : ags.Nonneg) (n6 : agd.Nonneg) :
    (PublicWhipScore.score vs vd vab vat ags agd = -1 ∨
      (0 ≤ PublicWhipScore.score vs vd vab vat ags agd ∧
        PublicWhipScore.score vs vd vab vat ags agd ≤ 1)) ∧
    (SimplifiedGradiatedScore.score vs vd vab vat ags agd = -1 ∨
      (0 ≤ SimplifiedGradiatedScore.score vs vd vab vat ags agd ∧
        SimplifiedGradiatedScore.score vs vd vab vat ags agd ≤ 1)) ∧
    (SimplifiedScore.score vs vd vab vat ags agd = -1 ∨
      (0 ≤ SimplifiedScore.score vs vd vab vat ags agd ∧
        SimplifiedScore.score vs vd vab vat ags agd ≤ 1)) := by
  obtain ⟨n1w, n1s⟩ := n1
  obtain ⟨n2w, n2s⟩ := n2
  obtain ⟨n3w, n3s⟩ := n3
  obtain ⟨n4w, n4s⟩ := n4
  obtain ⟨n5w, n5s⟩ := n5
  obtain ⟨n6w, n6s⟩ := n6
  refine ⟨?_, ?_, ?_⟩
  · by_cases hz : vs.weak + vs.strong + vd.weak + vd.strong + vat.weak + vat.strong = 0
        ∧ vab.weak + vab.strong > 0
    · left
      simp only [PublicWhipScore.score]
      rw [if_pos hz]
    · by_cases hav : PublicWhipScore.avaliable_points vs vd vab vat = 0
      · left
        simp only [PublicWhipScore.score]
        rw [if_neg hz, if_pos hav]
      · right
        simp only [PublicWhipScore.score]
        rw [if_neg hz, if_neg hav]
        refine ratio_mem_unit _ _ ?_ ?_ hav
        · simp only [PublicWhipScore.points, ScoreFloatPair.add_weak,
            ScoreFloatPair.add_strong]
          linarith
        · simp only [PublicWhipScore.points, PublicWhipScore.avaliable_points,
            ScoreFloatPair.add_weak, ScoreFloatPair.add_strong]
          linarith
  · by_cases hav : SimplifiedGradiatedScore.avaliable_points vs vd vab vat ags agd = 0
    · left
      simp only [SimplifiedGradiatedScore.score]
      rw [if_pos hav]
    · right
      simp only [SimplifiedGradiatedScore.score]
      rw [if_neg hav]
      refine applyClamps_mem_unit _ _ _ ?_ ?_
      · refine (ratio_mem_unit _ _ ?_ ?_ hav).1
        · simp only [SimplifiedGradiatedScore.points, ScoreFloatPair.divide_weak,
            ScoreFloatPair.divide_strong]
          linarith
        · simp only [SimplifiedGradiatedScore.points,
            SimplifiedGradiatedScore.avaliable_points, ScoreFloatPair.divide_weak,
            ScoreFloatPair.divide_strong]
          linarith
      · refine (ratio_mem_unit _ _ ?_ ?_ hav).2
        · simp only [SimplifiedGradiatedScore.points, ScoreFloatPair.divide_weak,
            ScoreFloatPair.divide_strong]
          linarith
        · simp only [SimplifiedGradiatedScore.points,
            SimplifiedGradiatedScore.avaliable_points, ScoreFloatPair.divide_weak,
            ScoreFloatPair.divide_strong]
          linarith
  · by_cases hav : SimplifiedScore.avaliable_points vs vd vab vat ags agd = 0
    · left
      simp only [SimplifiedScore.score]
      rw [if_pos hav]
    · right
      simp only [SimplifiedScore.score]
      rw [if_neg hav]
      refine applyClamps_mem_unit _ _ _ ?_ ?_
      · refine (ratio_mem_unit _ _ ?_ ?_ hav).1
        · simp only [SimplifiedScore.points, ScoreFloatPair.divide_weak,
            ScoreFloatPair.divide_strong]
          linarith
        · simp only [SimplifiedScore.points, SimplifiedScore.avaliable_points,
            ScoreFloatPair.divide_weak, ScoreFloatPair.divide_strong]
          linarith
      · refine (ratio_mem_unit _ _ ?_ ?_ hav).2
        · simp only [SimplifiedScore.points, ScoreFloatPair.divide_weak,
            ScoreFloatPair.divide_strong]
          linarith
        · simp only [SimplifiedScore.points, SimplifiedScore.avaliable_points,
            ScoreFloatPair.divide_weak, ScoreFloatPair.divide_strong]
          linarith

/-- Witness for C2 at all pairs equal to (1, 1). -/
theorem scores_bounded_witness :
    ScoreFloatPair.Nonneg ⟨1, 1⟩ ∧
    ((PublicWhipScore.score ⟨1, 1⟩ ⟨1, 1⟩ ⟨1, 1⟩ ⟨1, 1⟩ ⟨1, 1⟩ ⟨1, 1⟩ = -1 ∨
      (0 ≤ PublicWhipScore.score ⟨1, 1⟩ ⟨1, 1⟩ ⟨1, 1⟩ ⟨1, 1⟩ ⟨1, 1⟩ ⟨1, 1⟩ ∧
        PublicWhipScore.score ⟨1, 1⟩ ⟨1, 1⟩ ⟨1, 1⟩ ⟨1, 1⟩ ⟨1, 1⟩ ⟨1, 1⟩ ≤ 1)) ∧
    (SimplifiedGradiatedScore.score ⟨1, 1⟩ ⟨1, 1⟩ ⟨1, 1⟩ ⟨1, 1⟩ ⟨1, 1⟩ ⟨1, 1⟩ = -1 ∨
      (0 ≤ SimplifiedGradiatedScore.score ⟨1, 1⟩ ⟨1, 1⟩ ⟨1, 1⟩ ⟨1, 1⟩ ⟨1, 1⟩ ⟨1, 1⟩ ∧
        SimplifiedGradiatedScore.score ⟨1, 1⟩ ⟨1, 1⟩ ⟨1, 1⟩ ⟨1, 1⟩ ⟨1, 1⟩ ⟨1, 1⟩ ≤ 1)) ∧
    (SimplifiedScore.score ⟨1, 1⟩ ⟨1, 1⟩ ⟨1, 1⟩ ⟨1, 1⟩ ⟨1, 1⟩ ⟨1, 1⟩ = -1 ∨
      (0 ≤ SimplifiedScore.score ⟨1, 1⟩ ⟨1, 1⟩ ⟨1, 1⟩ ⟨1, 1⟩ ⟨1, 1⟩ ⟨1, 1⟩ ∧
        SimplifiedScore.score ⟨1, 1⟩ ⟨1, 1⟩ ⟨1, 1⟩ ⟨1, 1⟩ ⟨1, 1⟩ ⟨1, 1⟩ ≤ 1))) :=
  ⟨⟨by norm_num, by norm_num⟩,
    scores_bounded ⟨1, 1⟩ ⟨1, 1⟩ ⟨1, 1⟩ ⟨1, 1⟩ ⟨1, 1⟩ ⟨1, 1⟩
      ⟨by norm_num, by norm_num⟩ ⟨by norm_num, by norm_num⟩ ⟨by norm_num, by norm_num⟩
      ⟨by norm_num, by norm_num⟩ ⟨by norm_num, by norm_num⟩ ⟨by norm_num, by norm_num⟩⟩

/-- Witness for C6 at strong-only counts (1, 2, 3, 4, 5, 6). -/
theorem simplifiedScore_eq_gradiated_witness :
    SimplifiedScore.score ⟨0, 1⟩ ⟨0, 2⟩ ⟨0, 3⟩ ⟨0, 4⟩ ⟨0, 5⟩ ⟨0, 6⟩
      = SimplifiedGradiatedScore.score ⟨0, 1⟩ ⟨0, 2⟩ ⟨0, 3⟩ ⟨0, 4⟩ ⟨0, 5⟩ ⟨0, 6⟩ :=
  simplifiedScore_eq_gradiated_when_weak_zero ⟨0, 1⟩ ⟨0, 2⟩ ⟨0, 3⟩ ⟨0, 4⟩ ⟨0, 5⟩ ⟨0, 6⟩
    rfl rfl rfl rfl rfl rfl
